import Mathlib

/-!
Shallow embedding of the trading bot in `bot.py` (class `TradingBot`):
the order executor `create_order`, its fill-polling loop, the open-order
guard `has_open_order`, the signal condition of `run_trading_bot`, and the
trading loop's cycle.  Prices, balances and amounts are modelled as `ℚ`
(the Python code manipulates them with exact-in-context arithmetic);
exceptions are modelled with `Except`; exchange interaction is modelled by
an oracle (`Exchange`) recording what each ccxt call would answer, with
calls made repeatedly (the polling reads) indexed by the round on which
they happen, and the order-placement call indexed by the attempt number so
that retry behaviour is expressible.
-/

namespace Bot

/-- Exceptions that the exchange calls (and Python name resolution) can
raise; `exn` covers the explicitly `raise`d application exception. -/
inductive PyErr where
  | networkError
  | rateLimited
  | orderRejected
  | nameError (nm : String)
  | exn (msg : String)
deriving DecidableEq

/-- Oracle for the ccxt exchange object used by `TradingBot`.  Each field
answers one method: `fetch_ticker` (the `last` price), `fetch_balance`
(`balance["total"]["USDT"]`), `create_limit_buy_order` indexed by attempt
number and given amount and price (`.ok none` models a returned object
that is falsy or lacks an `"id"` key), `fetch_open_orders` and
`fetch_closed_orders` indexed by the poll round, and `create_order` with
`type="OCO"` given amount, take-profit price and stop price. -/
structure Exchange where
  fetch_ticker : Except PyErr ℚ
  fetch_balance : Except PyErr ℚ
  create_limit_buy_order : Nat → ℚ → ℚ → Except PyErr (Option String)
  fetch_open_orders : Nat → Except PyErr (List String)
  fetch_closed_orders : Nat → Except PyErr (List String)
  create_oco_order : ℚ → ℚ → ℚ → Except PyErr Unit

/-- `risk_percentage = 0.5` — 0.5% risk per trade (bot.py line 61). -/
def risk_percentage : ℚ := 1 / 2

/-- `rrr = 2` — risk-to-reward 1:2 (bot.py line 62). -/
def rrr : ℚ := 2

/-- The two legs that a one-cancels-other exit order consists of: the
take-profit limit leg placed at `price` and the stop-loss leg placed at
`params["stopPrice"]`. -/
inductive ExitKind where
  | takeProfitLeg
  | stopLossLeg
deriving DecidableEq

/-- An exit order leg living on the exchange after the OCO submission. -/
structure ExitOrder where
  side : String
  kind : ExitKind
  price : ℚ
  amount : ℚ
deriving DecidableEq

/-- How one invocation of `create_order` ends.  `escaped` means an
exception propagated out of the method to the caller (possible only from
the `fetch_ticker`/`fetch_balance` calls, which precede the `try` block);
`returnedCaught` means the outer `except` handler caught the exception,
printed it and the method returned `None`; `returnedOk` means the method
ran to the OCO submission and returned `None`; `stillPolling` means the
fill-wait `while` loop had not exited within the observed number of poll
rounds (the loop itself has no bound). -/
inductive Outcome where
  | escaped (e : PyErr)
  | returnedCaught (e : PyErr)
  | returnedOk
  | stillPolling
deriving DecidableEq

/-- Observable effects of one `create_order` invocation:
`entryAttempts` counts calls to `create_limit_buy_order`, `entryAmount`
is the amount passed to it, `exits` are the exit-order legs established
on the exchange, `cancels` counts `cancel_order` calls (the source never
makes one). -/
structure RunResult where
  outcome : Outcome
  entryAttempts : Nat
  entryAmount : Option ℚ
  entryPrice : Option ℚ
  exits : List ExitOrder
  cancels : Nat
deriving DecidableEq

/-- The fill-wait loop of `create_order` (bot.py lines 94-108), polling
from round `k` for at most `fuel` rounds: fetch the open orders; if the
order id is among them keep waiting; otherwise fetch the closed orders and
report the fill round if the id is among them; otherwise (the order is in
neither list — status unconfirmed) keep waiting.  `.ok none` means the
loop was still running after `fuel` rounds; `.error` means an exchange
read raised (propagating to the outer handler). -/
def poll_fill (ex : Exchange) (oid : String) : Nat → Nat → Except PyErr (Option Nat)
  | 0, _ => .ok none
  | fuel + 1, k =>
    match ex.fetch_open_orders k with
    | .error e => .error e
    | .ok opens =>
      if oid ∈ opens then
        poll_fill ex oid fuel (k + 1)
      else
        match ex.fetch_closed_orders k with
        | .error e => .error e
        | .ok closeds =>
          if oid ∈ closeds then .ok (some k)
          else poll_fill ex oid fuel (k + 1)

/-- The `try` block of `create_order` (bot.py lines 77-124), after the
entry price, stop loss, take profit and trade size have been computed.
The placement call sits in an inner `try` whose handler only prints, so a
raising placement leaves `limit_order` unbound and the following
`if not limit_order or "id" not in limit_order` raises `NameError` into
the outer handler.  A successful OCO call establishes the two linked exit
legs (sell take-profit limit leg at `take_profit`, sell stop-loss leg at
`stop_loss`) on the exchange. -/
def create_order_try (ex : Exchange) (fuel : Nat)
    (entry_price stop_loss take_profit trade_size : ℚ) : RunResult :=
  match ex.create_limit_buy_order 0 trade_size entry_price with
  | .error _ =>
    ⟨.returnedCaught (.nameError "limit_order"), 1, some trade_size, some entry_price, [], 0⟩
  | .ok none =>
    ⟨.returnedCaught (.exn "Order placement failed, no valid order ID returned."),
      1, some trade_size, some entry_price, [], 0⟩
  | .ok (some order_id) =>
    match poll_fill ex order_id fuel 0 with
    | .error e => ⟨.returnedCaught e, 1, some trade_size, some entry_price, [], 0⟩
    | .ok none => ⟨.stillPolling, 1, some trade_size, some entry_price, [], 0⟩
    | .ok (some _) =>
      match ex.create_oco_order trade_size take_profit stop_loss with
      | .error e => ⟨.returnedCaught e, 1, some trade_size, some entry_price, [], 0⟩
      | .ok _ =>
        ⟨.returnedOk, 1, some trade_size, some entry_price,
          [⟨"sell", .takeProfitLeg, take_profit, trade_size⟩,
           ⟨"sell", .stopLossLeg, stop_loss, trade_size⟩], 0⟩

/-- `TradingBot.create_order` (bot.py lines 58-124).  The ticker and
balance fetches precede the `try` block, so their exceptions escape the
method; stop loss, take profit and trade size are computed as on lines
69, 70 and 75; everything from the placement on happens inside the `try`.
`fuel` bounds how many rounds of the (unbounded) fill-wait loop are
observed. -/
def create_order (ex : Exchange) (fuel : Nat) : RunResult :=
  match ex.fetch_ticker with
  | .error e => ⟨.escaped e, 0, none, none, [], 0⟩
  | .ok entry_price =>
    let stop_loss := entry_price * (1 - risk_percentage / 100)
    let take_profit := entry_price * (1 + risk_percentage * rrr / 100)
    match ex.fetch_balance with
    | .error e => ⟨.escaped e, 0, none, some entry_price, [], 0⟩
    | .ok usdt_balance =>
      let trade_size := usdt_balance * (1 / 10) / entry_price
      create_order_try ex fuel entry_price stop_loss take_profit trade_size

/-- An exchange on which everything succeeds: last price 100, balance
1000 USDT, the limit order is accepted with id `"o1"` and is already
among the closed orders on the first poll, and the OCO goes through. -/
def exGood : Exchange where
  fetch_ticker := .ok 100
  fetch_balance := .ok 1000
  create_limit_buy_order := fun _ _ _ => .ok (some "o1")
  fetch_open_orders := fun _ => .ok []
  fetch_closed_orders := fun _ => .ok ["o1"]
  create_oco_order := fun _ _ _ => .ok ()

/-- An exchange whose placement endpoint rate-limits the first two
attempts and would accept the third. -/
def exRateLimited : Exchange where
  fetch_ticker := .ok 100
  fetch_balance := .ok 1000
  create_limit_buy_order := fun k _ _ =>
    if k < 2 then .error .rateLimited else .ok (some "o1")
  fetch_open_orders := fun _ => .ok []
  fetch_closed_orders := fun _ => .ok ["o1"]
  create_oco_order := fun _ _ _ => .ok ()

/-- An exchange on which the entry order is accepted and then stays in the
open-order list forever. -/
def exStaysOpen : Exchange where
  fetch_ticker := .ok 100
  fetch_balance := .ok 1000
  create_limit_buy_order := fun _ _ _ => .ok (some "o1")
  fetch_open_orders := fun _ => .ok ["o1"]
  fetch_closed_orders := fun _ => .ok []
  create_oco_order := fun _ _ _ => .ok ()

/-- An exchange reporting a zero USDT balance; everything else succeeds. -/
def exZeroBalance : Exchange where
  fetch_ticker := .ok 100
  fetch_balance := .ok 0
  create_limit_buy_order := fun _ _ _ => .ok (some "o1")
  fetch_open_orders := fun _ => .ok []
  fetch_closed_orders := fun _ => .ok ["o1"]
  create_oco_order := fun _ _ _ => .ok ()

/-- An exchange whose ticker endpoint raises a network error. -/
def exTickerFails : Exchange where
  fetch_ticker := .error .networkError
  fetch_balance := .ok 1000
  create_limit_buy_order := fun _ _ _ => .ok (some "o1")
  fetch_open_orders := fun _ => .ok []
  fetch_closed_orders := fun _ => .ok ["o1"]
  create_oco_order := fun _ _ _ => .ok ()

/-- The discrete signal computed by the crossover test of
`run_trading_bot`. -/
inductive Signal where
  | noSignal
  | bullishCross
deriving DecidableEq

/-- The VWAP crossover condition of `run_trading_bot` (bot.py line 157):
bullish exactly when the previous fast (4-hourly) VWAP was strictly below
the previous slow (daily) VWAP and the current fast VWAP is strictly
above the current slow VWAP. -/
def evaluate (prevFast currFast prevSlow currSlow : ℚ) : Signal :=
  if prevFast < prevSlow ∧ currFast > currSlow then .bullishCross else .noSignal

/-- The names bound at module scope in bot.py (its imports and the class);
the relevant Python builtins add nothing named `create_order`, and
`create_order` itself is only an attribute of the `TradingBot` class, not
a module-level name. -/
def global_names : List String := ["os", "requests", "time", "ccxt", "pd", "TradingBot"]

/-- Python name resolution for a bare call inside a method body: the name
is looked up in the enclosing scopes (here only module scope and
builtins); an unbound name raises `NameError`. -/
def callGlobal (nm : String) : Except PyErr Unit :=
  if nm ∈ global_names then .ok () else .error (.nameError nm)

/-- `TradingBot.has_open_order` (bot.py lines 128-130): fetch the open
orders and report whether there is at least one; an exception from the
fetch propagates to the caller. -/
def has_open_order (r : Except PyErr (List String)) : Except PyErr Bool :=
  match r with
  | .error e => .error e
  | .ok l => .ok (decide (0 < l.length))

/-- What the exchange and the market-data endpoint would answer during one
cycle of `run_trading_bot`: the open-order list read by `has_open_order`,
and the last two values of each VWAP column of the fetched data frame
(`prev_4h_vwap`, `curr_4h_vwap`, `prev_daily_vwap`, `curr_daily_vwap`,
bot.py lines 151-154).  The data fetch and indicator computation
(`get_btc_data`, `calculate_vwap`) are modelled as this oracle: the spec
scopes the indicator arithmetic out as pure data transformation, and the
cycle consumes exactly these four values; `.error` covers any exception
they raise. -/
structure CycleEnv where
  openOrders : Except PyErr (List String)
  vwapData : Except PyErr (ℚ × ℚ × ℚ × ℚ)

/-- How one cycle of the `while True` loop of `run_trading_bot` ends:
an open order made it skip, the crossover test failed, an exception was
caught by the cycle's `except` handler, or an order-placement path ran. -/
inductive CycleResult where
  | skippedOpenOrder
  | noSignal
  | caughtError (e : PyErr)
  | entered
deriving DecidableEq

/-- Observable effects of one loop cycle: its result, how many entry
orders it submitted, whether `time.sleep(10)` ran, and which exception the
handler logged. -/
structure CycleOut where
  res : CycleResult
  submissions : Nat
  slept : Bool
  logged : Option PyErr
deriving DecidableEq

/-- One cycle of `run_trading_bot` (bot.py lines 135-166).  If an open
order exists the cycle prints and skips (note: without sleeping — the
`time.sleep(10)` on line 162 is inside the `else` branch).  Otherwise the
data is fetched, the VWAPs are read and the crossover is tested; on a
bullish crossover the body calls the bare name `create_order` (line 159),
which is resolved against module scope.  Any exception raised in the
cycle body is caught by the `except` handler, which prints it and sleeps. -/
def cycle (env : CycleEnv) : CycleOut :=
  match has_open_order env.openOrders with
  | .error e => ⟨.caughtError e, 0, true, some e⟩
  | .ok true => ⟨.skippedOpenOrder, 0, false, none⟩
  | .ok false =>
    match env.vwapData with
    | .error e => ⟨.caughtError e, 0, true, some e⟩
    | .ok (pf, cf, ps, cs) =>
      match evaluate pf cf ps cs with
      | .noSignal => ⟨.noSignal, 0, true, none⟩
      | .bullishCross =>
        match callGlobal "create_order" with
        | .error e => ⟨.caughtError e, 0, true, some e⟩
        | .ok _ => ⟨.entered, 1, true, none⟩

/-- The trace of the first `n` cycles of the `while True` loop, given the
per-cycle oracle `envs`.  The loop itself never stops: every cycle ends in
a defined `CycleOut` (the handler catches every cycle failure), so the
trace is total and grows by one entry per cycle. -/
def runTrace (envs : Nat → CycleEnv) : Nat → List CycleOut
  | 0 => []
  | n + 1 => runTrace envs n ++ [cycle (envs n)]

/-- Total number of entry orders the loop has submitted in its first `n`
cycles. -/
def totalSubmissions (envs : Nat → CycleEnv) (n : Nat) : Nat :=
  ((runTrace envs n).map CycleOut.submissions).sum

/-- A cycle environment with no open order and a strict bullish crossover
(prev fast 1 < prev slow 2, curr fast 3 > curr slow 2). -/
def envCross : CycleEnv := ⟨.ok [], .ok (1, 3, 2, 2)⟩

/-- A cycle environment with an open order present. -/
def envOpen : CycleEnv := ⟨.ok ["x"], .ok (0, 0, 0, 0)⟩

/-- A cycle environment whose data fetch raises a network error. -/
def envFetchFails : CycleEnv := ⟨.ok [], .error .networkError⟩

/-- The bare name `create_order` is unbound at module scope, so calling it
raises `NameError`. -/
theorem callGlobal_create_order :
    callGlobal "create_order" = .error (.nameError "create_order") := rfl

/-- After a successful ticker and balance fetch, `create_order` is its
`try` block applied to the computed stop loss, take profit and trade
size. -/
theorem create_order_eq_try (ex : Exchange) (fuel : Nat) (p b : ℚ)
    (hp : ex.fetch_ticker = .ok p) (hb : ex.fetch_balance = .ok b) :
    create_order ex fuel =
      create_order_try ex fuel p (p * (1 - risk_percentage / 100))
        (p * (1 + risk_percentage * rrr / 100)) (b * (1 / 10) / p) := by
  unfold create_order
  rw [hp, hb]

/-- Every branch of the `try` block makes exactly one placement attempt
with the computed trade size and entry price, and never cancels. -/
theorem create_order_try_fields (ex : Exchange) (fuel : Nat) (ep sl tp ts : ℚ) :
    (create_order_try ex fuel ep sl tp ts).entryAttempts = 1 ∧
    (create_order_try ex fuel ep sl tp ts).entryAmount = some ts ∧
    (create_order_try ex fuel ep sl tp ts).entryPrice = some ep ∧
    (create_order_try ex fuel ep sl tp ts).cancels = 0 := by
  unfold create_order_try
  rcases h1 : ex.create_limit_buy_order 0 ts ep with e | o
  · simp
  · rcases o with _ | oid
    · simp
    · rcases h2 : poll_fill ex oid fuel 0 with e | r
      · simp [h2]
      · rcases r with _ | k
        · simp [h2]
        · rcases h3 : ex.create_oco_order ts tp sl with e | u <;> simp [h2, h3]

/-- No branch of the `try` block lets an exception escape: the outer
handler catches everything raised inside it. -/
theorem create_order_try_not_escaped (ex : Exchange) (fuel : Nat) (ep sl tp ts : ℚ)
    (e : PyErr) : (create_order_try ex fuel ep sl tp ts).outcome ≠ .escaped e := by
  unfold create_order_try
  rcases h1 : ex.create_limit_buy_order 0 ts ep with e1 | o
  · simp
  · rcases o with _ | oid
    · simp
    · rcases h2 : poll_fill ex oid fuel 0 with e2 | r
      · simp [h2]
      · rcases r with _ | k
        · simp [h2]
        · rcases h3 : ex.create_oco_order ts tp sl with e3 | u <;> simp [h2, h3]

/-- If the `try` block ran to completion, it is the full happy-path
record: one placement attempt, and exactly the two linked exit legs of
the OCO order at the computed take-profit and stop-loss prices. -/
theorem create_order_try_ok (ex : Exchange) (fuel : Nat) (ep sl tp ts : ℚ)
    (h : (create_order_try ex fuel ep sl tp ts).outcome = .returnedOk) :
    create_order_try ex fuel ep sl tp ts =
      ⟨.returnedOk, 1, some ts, some ep,
        [⟨"sell", .takeProfitLeg, tp, ts⟩, ⟨"sell", .stopLossLeg, sl, ts⟩], 0⟩ := by
  unfold create_order_try at h ⊢
  rcases h1 : ex.create_limit_buy_order 0 ts ep with e1 | o
  · simp [h1] at h
  · rcases o with _ | oid
    · simp [h1] at h
    · simp only [h1] at h ⊢
      rcases h2 : poll_fill ex oid fuel 0 with e2 | r
      · simp [h2] at h
      · rcases r with _ | k
        · simp [h2] at h
        · simp only [h2] at h ⊢
          rcases h3 : ex.create_oco_order ts tp sl with e3 | u
          · simp [h3] at h
          · simp [h3]

/-- If the `try` block established exit orders, the placement returned an
order id and the fill poll observed the order among the closed orders. -/
theorem create_order_try_exits (ex : Exchange) (fuel : Nat) (ep sl tp ts : ℚ)
    (h : (create_order_try ex fuel ep sl tp ts).exits ≠ []) :
    ∃ oid j, ex.create_limit_buy_order 0 ts ep = .ok (some oid) ∧
      poll_fill ex oid fuel 0 = .ok (some j) := by
  unfold create_order_try at h
  rcases h1 : ex.create_limit_buy_order 0 ts ep with e1 | o
  · simp [h1] at h
  · rcases o with _ | oid
    · simp [h1] at h
    · simp only [h1] at h
      rcases h2 : poll_fill ex oid fuel 0 with e2 | r
      · simp [h2] at h
      · rcases r with _ | k
        · simp [h2] at h
        · exact ⟨oid, k, rfl, h2⟩

/-- `create_order` never makes more than one placement attempt. -/
theorem create_order_attempts_le (ex : Exchange) (fuel : Nat) :
    (create_order ex fuel).entryAttempts ≤ 1 := by
  unfold create_order
  rcases hp : ex.fetch_ticker with e | p
  · simp
  · rcases hb : ex.fetch_balance with e | b
    · simp
    · simpa using Nat.le_of_eq (create_order_try_fields ex fuel p _ _ _).1

/-- `create_order` never calls `cancel_order`. -/
theorem create_order_cancels (ex : Exchange) (fuel : Nat) :
    (create_order ex fuel).cancels = 0 := by
  unfold create_order
  rcases hp : ex.fetch_ticker with e | p
  · simp
  · rcases hb : ex.fetch_balance with e | b
    · simp
    · simpa using (create_order_try_fields ex fuel p _ _ _).2.2.2

/-- Every loop cycle submits zero entry orders: the only submitting
branch sits behind the bare-name call `create_order()`, whose name lookup
fails. -/
theorem cycle_submissions (env : CycleEnv) : (cycle env).submissions = 0 := by
  unfold cycle
  rcases h : has_open_order env.openOrders with e | b
  · simp [h]
  · cases b
    · simp only [h]
      rcases hv : env.vwapData with e | q
      · simp [hv]
      · obtain ⟨pf, cf, ps, cs⟩ := q
        simp only [hv]
        rcases hs : evaluate pf cf ps cs with _ | _
        · simp [hs]
        · simp [hs, callGlobal_create_order]
    · simp [h]

/-- A caught cycle failure is logged and followed by the retry sleep. -/
theorem cycle_caught (env : CycleEnv) (e : PyErr)
    (h : (cycle env).res = .caughtError e) :
    (cycle env).logged = some e ∧ (cycle env).slept = true := by
  unfold cycle at h ⊢
  rcases h1 : has_open_order env.openOrders with e1 | b
  · simp only [h1] at h ⊢
    simp at h
    simp [h]
  · cases b
    · simp only [h1] at h ⊢
      rcases hv : env.vwapData with e2 | q
      · simp only [hv] at h ⊢
        simp at h
        simp [h]
      · obtain ⟨pf, cf, ps, cs⟩ := q
        simp only [hv] at h ⊢
        rcases hs : evaluate pf cf ps cs with _ | _
        · simp [hs] at h
        · simp only [hs, callGlobal_create_order] at h ⊢
          simp at h
          simp [h]
    · simp [h1] at h


/-- The loop reaches every cycle: the trace after `m` cycles always has
exactly `m` entries, whatever each cycle did. -/
theorem runTrace_length (envs : Nat → CycleEnv) : ∀ m, (runTrace envs m).length = m
  | 0 => rfl
  | m + 1 => by simp [runTrace, runTrace_length envs m]

/-- Claim C1: for every confirmed entry fill at price `entry` (with the
bot's constants riskPct = `risk_percentage` = 0.5 and `rrr` = 2), the
executor submits exactly two exit orders — the two linked legs of the OCO
bracket — with take-profit price `entry * (1 + riskPct * rrr / 100)` and
stop-loss price `entry * (1 - riskPct / 100)`.  The witness instantiates
the numeric case entry = 100, where the prices are 101.0 and 99.5. -/
theorem C1_two_exit_orders (ex : Exchange) (fuel : Nat) (p : ℚ)
    (hp : ex.fetch_ticker = .ok p)
    (hok : (create_order ex fuel).outcome = .returnedOk) :
    (create_order ex fuel).exits.length = 2 ∧
    ∃ amt, (create_order ex fuel).exits =
      [⟨"sell", .takeProfitLeg, p * (1 + risk_percentage * rrr / 100), amt⟩,
       ⟨"sell", .stopLossLeg, p * (1 - risk_percentage / 100), amt⟩] := by
  rcases hb : ex.fetch_balance with e | b
  · exfalso
    unfold create_order at hok
    rw [hp, hb] at hok
    simp at hok
  · rw [create_order_eq_try ex fuel p b hp hb] at hok ⊢
    rw [create_order_try_ok ex fuel p _ _ _ hok]
    exact ⟨rfl, b * (1 / 10) / p, rfl⟩

/-- Witness for C1, at the concrete exchange `exGood` (entry price 100,
balance 1000): the fill is confirmed on the first poll, and the two exit
legs carry take-profit 100·(1 + 0.5·2/100) = 101 and stop-loss
100·(1 − 0.5/100) = 99.5, each for the computed amount 1. -/
theorem C1_two_exit_orders_witness :
    ((create_order exGood 1).exits.length = 2 ∧
     ∃ amt, (create_order exGood 1).exits =
       [⟨"sell", .takeProfitLeg, 100 * (1 + risk_percentage * rrr / 100), amt⟩,
        ⟨"sell", .stopLossLeg, 100 * (1 - risk_percentage / 100), amt⟩]) ∧
    (100 : ℚ) * (1 + risk_percentage * rrr / 100) = 101 ∧
    (100 : ℚ) * (1 - risk_percentage / 100) = 199 / 2 :=
  ⟨C1_two_exit_orders exGood 1 100 rfl (by decide),
   by norm_num [risk_percentage, rrr], by norm_num [risk_percentage, rrr]⟩

/-- Claim C2: the signal is `bullishCross` iff the previous fast VWAP was
strictly below the previous slow VWAP and the current fast VWAP is
strictly above the current slow VWAP; every adjacent pair that does not
strictly cross (including the flat-above state) yields `noSignal`, and on
`noSignal` the loop cycle triggers no entry. -/
theorem C2_bullish_cross_iff (pf cf ps cs : ℚ) :
    (evaluate pf cf ps cs = .bullishCross ↔ (pf < ps ∧ cf > cs)) ∧
    (¬(pf < ps ∧ cf > cs) → evaluate pf cf ps cs = .noSignal) ∧
    (∀ env : CycleEnv, env.openOrders = .ok [] → env.vwapData = .ok (pf, cf, ps, cs) →
      evaluate pf cf ps cs = .noSignal →
      (cycle env).res = .noSignal ∧ (cycle env).submissions = 0) := by
  refine ⟨?_, ?_, ?_⟩
  · unfold evaluate
    split <;> simp_all
  · intro h
    unfold evaluate
    rw [if_neg h]
  · intro env ho hv hns
    unfold cycle
    simp [ho, hv, has_open_order, hns]

/-- Witness for C2: the flat-above pair (prev fast 2 over prev slow 1,
curr fast 3 over curr slow 1) yields no signal, and the strict crossover
(1 below 2, then 3 above 2) yields the bullish cross. -/
theorem C2_bullish_cross_iff_witness :
    evaluate 2 3 1 1 = .noSignal ∧ evaluate 1 3 2 2 = .bullishCross :=
  ⟨(C2_bullish_cross_iff 2 3 1 1).2.1 (by decide),
   (C2_bullish_cross_iff 1 3 2 2).1.mpr (by decide)⟩

/-- Claim C3: in every reachable state of the trading loop the bot holds
at most one open position per symbol (it has submitted zero entry orders
after any number of cycles), and a cycle that finds an open order for the
symbol is a no-op: it skips, submits no second entry order and performs
no exchange write. -/
theorem C3_open_order_guard (envs : Nat → CycleEnv) (n : Nat)
    (env : CycleEnv) (oo : List String)
    (h1 : env.openOrders = .ok oo) (h2 : oo ≠ []) :
    totalSubmissions envs n = 0 ∧ totalSubmissions envs n ≤ 1 ∧
    (cycle env).res = .skippedOpenOrder ∧ (cycle env).submissions = 0 ∧
    (cycle env).logged = none := by
  have htot : totalSubmissions envs n = 0 := by
    unfold totalSubmissions
    induction n with
    | zero => rfl
    | succ m ih =>
      simp [runTrace, cycle_submissions, ih]
  have hb : 0 < oo.length := by
    cases oo with
    | nil => exact absurd rfl h2
    | cons a l => exact Nat.succ_pos _
  have hskip : cycle env = ⟨.skippedOpenOrder, 0, false, none⟩ := by
    unfold cycle
    simp [h1, has_open_order, hb]
  exact ⟨htot, htot ▸ Nat.zero_le 1, by rw [hskip], by rw [hskip], by rw [hskip]⟩

/-- Witness for C3: after two cycles of the crossover environment the
loop has submitted nothing, and the cycle that sees the open order
`"x"` skips without submitting or logging. -/
theorem C3_open_order_guard_witness :
    totalSubmissions (fun _ => envCross) 2 = 0 ∧
    totalSubmissions (fun _ => envCross) 2 ≤ 1 ∧
    (cycle envOpen).res = .skippedOpenOrder ∧ (cycle envOpen).submissions = 0 ∧
    (cycle envOpen).logged = none :=
  C3_open_order_guard (fun _ => envCross) 2 envOpen ["x"] rfl (by decide)

/-- Claim C4: every failure raised inside one cycle of the trading loop
is caught by the cycle's handler, which logs it and sleeps the cadence
delay, and the loop keeps running — the trace reaches every cycle index
no matter what any cycle did, so no single cycle's failure terminates the
process. -/
theorem C4_cycle_failure_logged_loop_continues (envs : Nat → CycleEnv)
    (n : Nat) (e : PyErr) (h : (cycle (envs n)).res = .caughtError e) :
    (cycle (envs n)).logged = some e ∧ (cycle (envs n)).slept = true ∧
    ∀ m, (runTrace envs m).length = m :=
  ⟨(cycle_caught (envs n) e h).1, (cycle_caught (envs n) e h).2,
   runTrace_length envs⟩

/-- Witness for C4: with a data fetch that raises a network error, the
cycle logs that error and sleeps, and the trace still has an entry for
each of the first three cycles. -/
theorem C4_cycle_failure_logged_loop_continues_witness :
    (cycle envFetchFails).logged = some .networkError ∧
    (cycle envFetchFails).slept = true ∧
    (runTrace (fun _ => envFetchFails) 3).length = 3 :=
  ⟨(C4_cycle_failure_logged_loop_continues (fun _ => envFetchFails) 0
      .networkError (by decide)).1,
   (C4_cycle_failure_logged_loop_continues (fun _ => envFetchFails) 0
      .networkError (by decide)).2.1,
   (C4_cycle_failure_logged_loop_continues (fun _ => envFetchFails) 0
      .networkError (by decide)).2.2 3⟩

/-- Counterexample to claim C5: on an exchange that rate-limits the first
two placement attempts and would accept the third, the executor does not
complete successfully — it makes exactly one attempt (no retry, no
backoff), falls into the caught `NameError` path left by the inner
handler, and submits no exit orders. -/
theorem C5_counterexample :
    (create_order exRateLimited 5).outcome = .returnedCaught (.nameError "limit_order") ∧
    (create_order exRateLimited 5).entryAttempts = 1 ∧
    (create_order exRateLimited 5).exits = [] := by decide

/-- Claim C5 as amended: the executor makes exactly one placement attempt
per invocation — there is no retry and no backoff for any failure kind.
Any placement failure (`RateLimited`, `NetworkError` and `OrderRejected`
alike) is caught by the inner handler, after which the unbound
`limit_order` check raises `NameError` into the outer handler: the
attempt fails with no exit orders and no second attempt is ever made. -/
theorem C5_single_attempt_no_retry (ex : Exchange) (fuel : Nat) (p b : ℚ)
    (e : PyErr) (hp : ex.fetch_ticker = .ok p) (hb : ex.fetch_balance = .ok b)
    (hplace : ex.create_limit_buy_order 0 (b * (1 / 10) / p) p = .error e) :
    (create_order ex fuel).entryAttempts = 1 ∧
    (create_order ex fuel).outcome = .returnedCaught (.nameError "limit_order") ∧
    (create_order ex fuel).exits = [] ∧
    ∀ ex2 fuel2, (create_order ex2 fuel2).entryAttempts ≤ 1 := by
  rw [create_order_eq_try ex fuel p b hp hb]
  refine ⟨(create_order_try_fields ex fuel p _ _ _).1, ?_, ?_,
    fun ex2 fuel2 => create_order_attempts_le ex2 fuel2⟩
  · simp only [create_order_try, hplace]
  · simp only [create_order_try, hplace]

/-- Witness for the amended C5, on the rate-limiting exchange: one
attempt, the caught `NameError` outcome, and no exits. -/
theorem C5_single_attempt_no_retry_witness :
    (create_order exRateLimited 5).entryAttempts = 1 ∧
    (create_order exRateLimited 5).outcome = .returnedCaught (.nameError "limit_order") ∧
    (create_order exRateLimited 5).exits = [] :=
  ⟨(C5_single_attempt_no_retry exRateLimited 5 100 1000 .rateLimited rfl rfl rfl).1,
   (C5_single_attempt_no_retry exRateLimited 5 100 1000 .rateLimited rfl rfl rfl).2.1,
   (C5_single_attempt_no_retry exRateLimited 5 100 1000 .rateLimited rfl rfl rfl).2.2.1⟩

/-- On the exchange that keeps the entry order open forever, the fill
poll never finishes, from any round and with any observation bound. -/
theorem poll_fill_exStaysOpen :
    ∀ fuel k, poll_fill exStaysOpen "o1" fuel k = .ok none
  | 0, _ => rfl
  | fuel + 1, k => by
    have h := poll_fill_exStaysOpen fuel (k + 1)
    simp only [poll_fill, h]
    rfl

set_option maxRecDepth 4000 in
/-- Counterexample to claim C6: on the exchange that keeps the entry
order open, the executor is still inside the fill-wait loop after 301
poll rounds — far past the claimed 10-minute maximum at a 2-second
cadence — and has issued no `cancelOrder`. -/
theorem C6_counterexample :
    (create_order exStaysOpen 301).outcome = .stillPolling ∧
    (create_order exStaysOpen 301).cancels = 0 := by decide

/-- Claim C6 as amended: the fill-wait loop is unbounded — it has no
maximum wait and no cancellation path.  While the order stays in the
open-order list the executor keeps polling, for any number of rounds, and
`cancelOrder` is never called on any exchange behaviour. -/
theorem C6_unbounded_polling_no_cancel (fuel : Nat) (ex : Exchange) (fuel2 : Nat) :
    (create_order exStaysOpen fuel).outcome = .stillPolling ∧
    (create_order exStaysOpen fuel).cancels = 0 ∧
    (create_order ex fuel2).cancels = 0 := by
  refine ⟨?_, create_order_cancels exStaysOpen fuel, create_order_cancels ex fuel2⟩
  rw [create_order_eq_try exStaysOpen fuel 100 1000 rfl rfl]
  have h1 : exStaysOpen.create_limit_buy_order 0 ((1000 : ℚ) * (1 / 10) / 100) 100 =
      .ok (some "o1") := rfl
  have h2 := poll_fill_exStaysOpen fuel 0
  simp only [create_order_try, h1, h2]

/-- Counterexample to claim C7: with a zero balance the computed quantity
is 0 — below any positive exchange minimum — yet no `InsufficientBalance`
failure occurs: the entry order is submitted anyway and the whole flow
runs to completion. -/
theorem C7_counterexample :
    (create_order exZeroBalance 1).entryAmount = some 0 ∧
    (create_order exZeroBalance 1).entryAttempts = 1 ∧
    (create_order exZeroBalance 1).outcome = .returnedOk := by
  refine ⟨?_, by decide, by decide⟩
  rw [create_order_eq_try exZeroBalance 1 100 0 rfl rfl,
    (create_order_try_fields exZeroBalance 1 100 _ _ _).2.1]
  norm_num

/-- Claim C7 as amended: sizing computes
`quantity = (balance * 0.1) / entryPrice` from the balance fetched in the
same invocation; there is no minimum-order-size check and no
`InsufficientBalance` failure — the placement is attempted exactly once
with that quantity however small it is. -/
theorem C7_sizing_no_minimum_check (ex : Exchange) (fuel : Nat) (p b : ℚ)
    (hp : ex.fetch_ticker = .ok p) (hb : ex.fetch_balance = .ok b) :
    (create_order ex fuel).entryAmount = some (b * (1 / 10) / p) ∧
    (create_order ex fuel).entryAttempts = 1 := by
  rw [create_order_eq_try ex fuel p b hp hb]
  exact ⟨(create_order_try_fields ex fuel p _ _ _).2.1,
    (create_order_try_fields ex fuel p _ _ _).1⟩

/-- Witness for the amended C7, on `exGood`: quantity
1000 · (1/10) / 100 submitted in one attempt. -/
theorem C7_sizing_no_minimum_check_witness :
    (create_order exGood 1).entryAmount = some ((1000 : ℚ) * (1 / 10) / 100) ∧
    (create_order exGood 1).entryAttempts = 1 :=
  C7_sizing_no_minimum_check exGood 1 100 1000 rfl rfl

/-- If the fill poll reports a fill, the polled round saw the order
absent from the open orders and present in the closed orders. -/
theorem poll_fill_filled (ex : Exchange) (oid : String) :
    ∀ fuel k j, poll_fill ex oid fuel k = .ok (some j) →
      ∃ opens closeds, ex.fetch_open_orders j = .ok opens ∧ oid ∉ opens ∧
        ex.fetch_closed_orders j = .ok closeds ∧ oid ∈ closeds := by
  intro fuel
  induction fuel with
  | zero =>
    intro k j h
    exact absurd h (by simp [poll_fill])
  | succ n ih =>
    intro k j h
    simp only [poll_fill] at h
    rcases h1 : ex.fetch_open_orders k with e | opens
    · simp [h1] at h
    · simp only [h1] at h
      by_cases hm : oid ∈ opens
      · rw [if_pos hm] at h
        exact ih (k + 1) j h
      · rw [if_neg hm] at h
        rcases h2 : ex.fetch_closed_orders k with e | closeds
        · simp [h2] at h
        · simp only [h2] at h
          by_cases hc : oid ∈ closeds
          · rw [if_pos hc] at h
            simp only [Except.ok.injEq, Option.some.injEq] at h
            subst h
            exact ⟨opens, closeds, h1, hm, h2, hc⟩
          · rw [if_neg hc] at h
            exact ih (k + 1) j h

/-- When a polled round can confirm neither state (the order is in
neither list), the loop simply re-polls from the next round: the order is
treated as still open, not as filled. -/
theorem poll_fill_unknown_step (ex : Exchange) (oid : String) (fuel k : Nat)
    (opens closeds : List String)
    (ho : ex.fetch_open_orders k = .ok opens) (hno : oid ∉ opens)
    (hc : ex.fetch_closed_orders k = .ok closeds) (hnc : oid ∉ closeds) :
    poll_fill ex oid (fuel + 1) k = poll_fill ex oid fuel (k + 1) := by
  simp only [poll_fill, ho]
  rw [if_neg hno]
  simp only [hc]
  rw [if_neg hnc]

/-- If `create_order` established exit orders, the placement returned an
id and the fill poll confirmed that id among the closed orders. -/
theorem create_order_exits_imp (ex : Exchange) (fuel : Nat)
    (h : (create_order ex fuel).exits ≠ []) :
    ∃ ts p oid j, ex.create_limit_buy_order 0 ts p = .ok (some oid) ∧
      poll_fill ex oid fuel 0 = .ok (some j) := by
  unfold create_order at h
  rcases hp : ex.fetch_ticker with e | p
  · simp [hp] at h
  · simp only [hp] at h
    rcases hb : ex.fetch_balance with e | b
    · simp [hb] at h
    · simp only [hb] at h
      obtain ⟨oid, j, h1, h2⟩ := create_order_try_exits ex fuel p _ _ _ h
      exact ⟨_, p, oid, j, h1, h2⟩

/-- Claim C8: an unconfirmed order status is never treated as filled.
A poll can report a fill only on a round that saw the order in the closed
orders (and out of the open orders); a round on which the order is in
neither list just re-polls, treating the order as still open; and exit
orders are only ever established after such a confirmed fill. -/
theorem C8_unknown_never_filled :
    (∀ ex oid fuel k j, poll_fill ex oid fuel k = .ok (some j) →
      ∃ opens closeds, ex.fetch_open_orders j = .ok opens ∧ oid ∉ opens ∧
        ex.fetch_closed_orders j = .ok closeds ∧ oid ∈ closeds) ∧
    (∀ ex oid fuel k opens closeds,
      ex.fetch_open_orders k = .ok opens → oid ∉ opens →
      ex.fetch_closed_orders k = .ok closeds → oid ∉ closeds →
      poll_fill ex oid (fuel + 1) k = poll_fill ex oid fuel (k + 1)) ∧
    (∀ ex fuel, (create_order ex fuel).exits ≠ [] →
      ∃ ts p oid j, ex.create_limit_buy_order 0 ts p = .ok (some oid) ∧
        poll_fill ex oid fuel 0 = .ok (some j)) :=
  ⟨fun ex oid fuel k j h => poll_fill_filled ex oid fuel k j h,
   fun ex oid fuel k opens closeds ho hno hc hnc =>
     poll_fill_unknown_step ex oid fuel k opens closeds ho hno hc hnc,
   fun ex fuel h => create_order_exits_imp ex fuel h⟩

/-- Witness for C8: on `exGood` an order id `"zzz"` that appears in
neither list makes the poll step re-poll from the next round. -/
theorem C8_unknown_never_filled_witness :
    poll_fill exGood "zzz" 1 0 = poll_fill exGood "zzz" 0 1 :=
  C8_unknown_never_filled.2.1 exGood "zzz" 0 0 [] ["o1"] rfl (by decide) rfl
    (by decide)

/-- Counterexample to claim C9: an exchange behaviour on which the ticker
fetch raises makes `create_order` propagate that exception to its caller
— the ticker and balance fetches precede the `try` block. -/
theorem C9_counterexample :
    (create_order exTickerFails 1).outcome = .escaped .networkError := by decide

/-- Claim C9 as amended: once the ticker and balance fetches (which
precede the `try` block and whose exceptions do propagate) have
succeeded, `create_order` never propagates an exception: every later
failure is caught, including the path where the placement raised, left
`limit_order` unbound, and the order-id check raised `NameError` into the
outer handler. -/
theorem C9_no_propagation_after_prelude (ex : Exchange) (fuel : Nat) (p b : ℚ)
    (hp : ex.fetch_ticker = .ok p) (hb : ex.fetch_balance = .ok b) :
    (∀ e, (create_order ex fuel).outcome ≠ .escaped e) ∧
    (∀ e, ex.create_limit_buy_order 0 (b * (1 / 10) / p) p = .error e →
      (create_order ex fuel).outcome = .returnedCaught (.nameError "limit_order")) := by
  rw [create_order_eq_try ex fuel p b hp hb]
  constructor
  · exact fun e => create_order_try_not_escaped ex fuel p _ _ _ e
  · intro e he
    simp only [create_order_try, he]

/-- Witness for the amended C9, on `exGood`: no escape. -/
theorem C9_no_propagation_after_prelude_witness :
    (create_order exGood 1).outcome ≠ .escaped .networkError :=
  (C9_no_propagation_after_prelude exGood 1 100 1000 rfl rfl).1 .networkError

/-- Claim C10: in a cycle where the bullish-crossover condition holds,
the branch body's bare name `create_order` is unbound, so the cycle ends
in the caught `NameError`; consequently no cycle of `run_trading_bot`
ever submits an order. -/
theorem C10_crossover_raises_name_error (env : CycleEnv) (pf cf ps cs : ℚ)
    (ho : env.openOrders = .ok []) (hv : env.vwapData = .ok (pf, cf, ps, cs))
    (h1 : pf < ps) (h2 : cf > cs) :
    (cycle env).res = .caughtError (.nameError "create_order") ∧
    (cycle env).logged = some (.nameError "create_order") ∧
    ∀ env2 : CycleEnv, (cycle env2).submissions = 0 := by
  have hcross : evaluate pf cf ps cs = .bullishCross := by
    unfold evaluate
    rw [if_pos ⟨h1, h2⟩]
  have hcy : cycle env = ⟨.caughtError (.nameError "create_order"), 0, true,
      some (.nameError "create_order")⟩ := by
    unfold cycle
    simp [ho, hv, has_open_order, hcross, callGlobal_create_order]
  exact ⟨by rw [hcy], by rw [hcy], cycle_submissions⟩

/-- Witness for C10, at the crossover environment `envCross`. -/
theorem C10_crossover_raises_name_error_witness :
    (cycle envCross).res = .caughtError (.nameError "create_order") :=
  (C10_crossover_raises_name_error envCross 1 3 2 2 rfl rfl (by decide)
    (by decide)).1

end Bot
